import Mathlib

/-!
Verification of the togglgo-mcp tool server.

This file is a shallow embedding, in Lean 4, of the core of the
togglgo-mcp repository: the generic response decoder (`decodeResponse`),
the parameter-extraction helpers, the duration and date helpers, and the
eight tool handlers.  Effectful library boundaries are made explicit:

* Go machine integers are modelled as `Int` (no arithmetic in the code
  comes near an overflow boundary);
* float64-valued JSON numbers are modelled as `Rat`, with Go's `int(v)`
  conversion modelled as rational truncation toward zero;
* the argument bag (Go's string-keyed map of dynamic values) is modelled as a function
  `String → Option ParamValue`, mutation of it as explicit state passing;
* the HTTP transport is modelled as an oracle `Request → Except String
  HTTPResponse`, with `Except.error` standing for a failure of
  `makeRequest` (request construction or execution);
* `io.ReadAll` of a response body is modelled by the `Except String
  String` stored in the response;
* the generic instantiation `decodeResponse[T]` is modelled by passing
  the zero value of `T` and the `encoding/json` unmarshal step at `T` as
  explicit arguments, the unmarshal step having Go's in-out shape
  `String → T → T × Option String`;
* a concrete, executable model of `encoding/json`'s unmarshal at the
  `UserInfo` shape (`goUnmarshalUserInfo`) is built on a full JSON
  parser, reproducing the documented Go behaviour: syntax validity is
  checked before any field is written, a field whose JSON value has the
  wrong type is skipped while decoding continues, and the first such
  error is reported at the end;
* `time.Now()` and `time.Since` are passed in as arguments where a
  handler uses them.

All definitions are executable and are translated from the repository's
Go source (`app/handlers.go`, the client/types file and the utils file).
-/

namespace Toggl

/-- A dynamically typed argument value as delivered by the tool
invocation layer: JSON numbers arrive as float64 (modelled as `Rat`),
plus strings, booleans and JSON null. -/
inductive ParamValue where
  | num (q : Rat)
  | str (s : String)
  | bool (b : Bool)
  | null
deriving DecidableEq

/-- The argument map (Go's string-keyed map of dynamic values) of a tool call:
`none` is an absent key. -/
def Args : Type := String → Option ParamValue

/-- Map update, modelling Go's `m[k] = v`. -/
def setArg (m : Args) (key : String) (v : ParamValue) : Args :=
  fun k => if k = key then some v else m k

/-- Map restriction, used to state frame properties: the map with one
key removed. -/
def removeArg (m : Args) (key : String) : Args :=
  fun k => if k = key then none else m k

/-- Go's conversion `int(v)` applied to a float64 `v`: truncation toward
zero (numbers are modelled as rationals). -/
def goIntOfNum (q : Rat) : Int := Int.tdiv q.num q.den

/-- From the utils file: `getRequiredNumber` extracts a required number
parameter.  The Go type assertion `params[key].(float64)` fails on an
absent key, a null value, and every non-number value. -/
def getRequiredNumber (params : Args) (key : String) : Except String Int :=
  match params key with
  | some (ParamValue.num q) => Except.ok (goIntOfNum q)
  | _ => Except.error (key ++ " must be a number")

/-- From the utils file: `getOptionalNumber` extracts an optional number
parameter, `none` on any mismatch or absence. -/
def getOptionalNumber (params : Args) (key : String) : Option Int :=
  match params key with
  | some (ParamValue.num q) => some (goIntOfNum q)
  | _ => none

/-- From the utils file: `getRequiredString` extracts a required string
parameter; rejects absence, null, non-strings and the empty string. -/
def getRequiredString (params : Args) (key : String) : Except String String :=
  match params key with
  | some (ParamValue.str v) =>
    if v = "" then Except.error (key ++ " must be a non-empty string")
    else Except.ok v
  | _ => Except.error (key ++ " must be a non-empty string")

/-- From the utils file: `getOptionalString` extracts an optional string
parameter, `""` on any mismatch or absence. -/
def getOptionalString (params : Args) (key : String) : String :=
  match params key with
  | some (ParamValue.str v) => v
  | _ => ""

/-- From the utils file: `formatDuration` renders a duration in seconds
(a Go `int`) as a human-readable string. -/
def formatDuration (seconds : Int) : String :=
  if seconds < 0 then
    "[running]"
  else
    let n := seconds.toNat
    let hours := n / 3600
    let minutes := (n % 3600) / 60
    let secs := n % 60
    if 0 < hours then
      "[" ++ toString hours ++ "h " ++ toString minutes ++ "m " ++ toString secs ++ "s]"
    else if 0 < minutes then
      "[" ++ toString minutes ++ "m " ++ toString secs ++ "s]"
    else
      "[" ++ toString secs ++ "s]"

/-! ## Calendar dates

The handlers use Go's `time.Parse("2006-01-02", s)`,
`Time.AddDate(0, 0, 1)` and `Time.Format("2006-01-02")`.  These are
modelled on a plain year/month/day record with the proleptic Gregorian
leap rule, which is exactly Go's calendar for these operations. -/

/-- A calendar date as used through layout "2006-01-02". -/
structure GoDate where
  year : Nat
  month : Nat
  day : Nat
deriving DecidableEq

/-- Go's leap-year rule (`time.isLeap`). -/
def isLeapYear (y : Nat) : Bool :=
  y % 4 == 0 && (y % 100 != 0 || y % 400 == 0)

/-- Days in a month, February depending on the leap rule. -/
def daysInMonth (y m : Nat) : Nat :=
  if m == 2 then (if isLeapYear y then 29 else 28)
  else if m == 4 || m == 6 || m == 9 || m == 11 then 30
  else 31

def isDigitChar (c : Char) : Bool := '0' ≤ c && c ≤ '9'

def digitVal (c : Char) : Nat := c.toNat - '0'.toNat

/-- Model of Go `time.Parse("2006-01-02", s)` restricted to its
accept/reject behaviour and the parsed calendar date: the layout demands
exactly four year digits, a literal dash, two month digits, a dash, two
day digits, and nothing after; Go then rejects a month outside 1..12 and
a day outside the month's range ("out of range" parse errors). -/
def parseDate (s : String) : Option GoDate :=
  match s.toList with
  | [y1, y2, y3, y4, h1, m1, m2, h2, d1, d2] =>
    if isDigitChar y1 && isDigitChar y2 && isDigitChar y3 && isDigitChar y4 &&
        h1 == '-' && h2 == '-' &&
        isDigitChar m1 && isDigitChar m2 && isDigitChar d1 && isDigitChar d2 then
      let y := digitVal y1 * 1000 + digitVal y2 * 100 + digitVal y3 * 10 + digitVal y4
      let m := digitVal m1 * 10 + digitVal m2
      let d := digitVal d1 * 10 + digitVal d2
      if 1 ≤ m ∧ m ≤ 12 ∧ 1 ≤ d ∧ d ≤ daysInMonth y m then
        some ⟨y, m, d⟩
      else none
    else none
  | _ => none

/-- Model of Go `t.AddDate(0, 0, 1)` on a valid calendar date: one
calendar day forward, rolling over month and year boundaries. -/
def addOneDay (dt : GoDate) : GoDate :=
  if dt.day + 1 ≤ daysInMonth dt.year dt.month then ⟨dt.year, dt.month, dt.day + 1⟩
  else if dt.month == 12 then ⟨dt.year + 1, 1, 1⟩
  else ⟨dt.year, dt.month + 1, 1⟩

/-- Zero-pad a number to two digits, as layout "01"/"02" formats. -/
def pad2 (n : Nat) : String :=
  if n < 10 then "0" ++ toString n else toString n

/-- Zero-pad a year to four digits, as layout "2006" formats. -/
def pad4 (n : Nat) : String :=
  if n < 10 then "000" ++ toString n
  else if n < 100 then "00" ++ toString n
  else if n < 1000 then "0" ++ toString n
  else toString n

/-- Model of Go `t.Format("2006-01-02")`. -/
def formatDate (dt : GoDate) : String :=
  pad4 dt.year ++ "-" ++ pad2 dt.month ++ "-" ++ pad2 dt.day

/-! ## Query encoding

`handleGetTimeEntries` and `handleGetProjects` build their query strings
through `url.Values.Set` followed by `url.Values.Encode`; `Encode`
percent-escapes keys and values and emits the keys in sorted order. -/

/-- Uppercase hex digit for a value below 16 (0-9 then A-F). -/
def hexDigitChar (n : Nat) : Char :=
  if n < 10 then Char.ofNat ('0'.toNat + n) else Char.ofNat ('A'.toNat + (n - 10))

def byteHex (b : Nat) : String :=
  String.mk [hexDigitChar (b / 16 % 16), hexDigitChar (b % 16)]

/-- UTF-8 encoding of one scalar value, byte values as `Nat`. -/
def utf8Bytes (c : Char) : List Nat :=
  let n := c.toNat
  if n < 0x80 then [n]
  else if n < 0x800 then [0xC0 + n / 0x40, 0x80 + n % 0x40]
  else if n < 0x10000 then
    [0xE0 + n / 0x1000, 0x80 + n / 0x40 % 0x40, 0x80 + n % 0x40]
  else
    [0xF0 + n / 0x40000, 0x80 + n / 0x1000 % 0x40, 0x80 + n / 0x40 % 0x40,
      0x80 + n % 0x40]

/-- The characters Go's `url.QueryEscape` leaves unescaped. -/
def isUnreservedQueryChar (c : Char) : Bool :=
  ('A' ≤ c && c ≤ 'Z') || ('a' ≤ c && c ≤ 'z') || ('0' ≤ c && c ≤ '9') ||
  c == '-' || c == '_' || c == '.' || c == '~'

/-- Model of Go `url.QueryEscape`: space becomes `+`, unreserved bytes
stay, every other byte becomes `%XX` with uppercase hex. -/
def queryEscape (s : String) : String :=
  String.join (s.toList.map fun c =>
    if isUnreservedQueryChar c then String.mk [c]
    else if c == ' ' then "+"
    else String.join ((utf8Bytes c).map fun b => "%" ++ byteHex b))

/-- Lexicographic order on character lists via code points; for the
ASCII keys the handlers use this is Go's byte-wise string order. -/
def charListLt : List Char → List Char → Bool
  | [], [] => false
  | [], _ :: _ => true
  | _ :: _, [] => false
  | a :: as, b :: bs =>
    if a.toNat < b.toNat then true
    else if b.toNat < a.toNat then false
    else charListLt as bs

def stringLtB (a b : String) : Bool := charListLt a.toList b.toList

def insertParamSorted (p : String × String) :
    List (String × String) → List (String × String)
  | [] => [p]
  | q :: rest =>
    if stringLtB p.1 q.1 then p :: q :: rest else q :: insertParamSorted p rest

def sortParams : List (String × String) → List (String × String)
  | [] => []
  | p :: rest => insertParamSorted p (sortParams rest)

/-- Model of Go `url.Values.Encode` for single-valued keys: keys sorted
ascending, `key=value` pairs joined with `&`, both sides escaped. -/
def encodeQuery (params : List (String × String)) : String :=
  String.intercalate "&"
    ((sortParams params).map fun p => queryEscape p.1 ++ "=" ++ queryEscape p.2)

/-! ## The response decoder

`decodeResponse[T]` reads the whole body, classifies a non-2xx status as
an `APIError` carrying the raw body verbatim, and otherwise unmarshals
the body into `T`'s zero value in Go's in-out style. -/

/-- An HTTP response as the decoder sees it: the status code (a Go
`int`) and the result of `io.ReadAll` on the body, where `Except.error`
models a body-read failure. -/
structure HTTPResponse where
  statusCode : Int
  body : Except String String

/-- The error side of `decodeResponse`, one constructor per kind the
handlers discriminate: a wrapped body-read error, an `APIError` (the
only kind `errors.As(err, &apiErr)` matches), and a wrapped
`json.Unmarshal` error. -/
inductive DecodeError where
  | readError (msg : String)
  | apiError (statusCode : Int) (body : String)
  | decodeError (msg : String)
deriving DecidableEq

/-- Model of `APIError.Error()` from the types file. -/
def apiErrorMessage (statusCode : Int) (body : String) : String :=
  "API error (status " ++ toString statusCode ++ "): " ++ body

/-- The `Error()` text of the error value `decodeResponse` returns,
with the wrapping prefixes `fmt.Errorf` adds. -/
def DecodeError.message : DecodeError → String
  | DecodeError.readError m => "reading response body: " ++ m
  | DecodeError.apiError st b => apiErrorMessage st b
  | DecodeError.decodeError m => "decoding response: " ++ m

/-- The unmarshal step of Go's `encoding/json` at a payload shape `T`,
in Go's in-out style: it receives the body and the current value of the
target and returns the (possibly partially) updated target and an
optional error message. -/
def Unmarshal (T : Type) : Type := String → T → T × Option String

/-- Translation of `decodeResponse[T]` from the client file.  The generic instantiation
is made explicit: `zero` is the value `var result T` declares and
`unmarshal` is `json.Unmarshal` at `T`. -/
def decodeResponse {T : Type} (zero : T) (unmarshal : Unmarshal T)
    (resp : HTTPResponse) : T × Option DecodeError :=
  match resp.body with
  | Except.error e => (zero, some (DecodeError.readError e))
  | Except.ok body =>
    if resp.statusCode < 200 ∨ 300 ≤ resp.statusCode then
      (zero, some (DecodeError.apiError resp.statusCode body))
    else
      match unmarshal body zero with
      | (result, some e) => (result, some (DecodeError.decodeError e))
      | (result, none) => (result, none)

/-! ## A concrete model of `encoding/json` unmarshaling

`json.Unmarshal` first checks the whole input for syntactic validity
(`checkValid`), so a syntactically broken body leaves the target
untouched.  On valid JSON it decodes field by field; a value of the
wrong type for a field produces an `UnmarshalTypeError` that is *saved*
while decoding continues with the remaining fields, so fields decoded
before (and after) the offending one are written into the target.  A
JSON null into a non-pointer field has no effect and produces no error;
unknown object keys are ignored; field names match their tag exactly or
ASCII case-insensitively.  The model below reproduces this for the
`UserInfo` shape used by `test_connection`. -/

inductive JSON where
  | null
  | bool (b : Bool)
  | num (q : Rat)
  | str (s : String)
  | arr (elems : List JSON)
  | obj (fields : List (String × JSON))

/-- JSON insignificant whitespace. -/
def isJSONSpace (c : Char) : Bool :=
  c == ' ' || c == '\t' || c == '\n' || c == '\r'

def skipWS (cs : List Char) : List Char :=
  match cs with
  | c :: rest => if isJSONSpace c then skipWS rest else cs
  | [] => []

/-- Value of one hex digit of a `\uXXXX` escape, lowercase and
uppercase letters both accepted. -/
def hexVal (c : Char) : Option Nat :=
  let n := c.toNat
  if isDigitChar c then some (n - '0'.toNat)
  else if 97 ≤ n && n ≤ 102 then some (n - 87)
  else if 65 ≤ n && n ≤ 70 then some (n - 55)
  else none

/-- JSON string contents after the opening quote, with the standard
escapes; lone surrogates in `\uXXXX` escapes become U+FFFD as in Go's
`unquoteChar`; unescaped control characters are rejected. -/
def parseJSONStringRest : Nat → List Char → List Char → Option (String × List Char)
  | 0, _, _ => none
  | fuel + 1, cs, acc =>
    match cs with
    | [] => none
    | '"' :: rest => some (String.mk acc.reverse, rest)
    | '\\' :: esc =>
      match esc with
      | '"' :: r => parseJSONStringRest fuel r ('"' :: acc)
      | '\\' :: r => parseJSONStringRest fuel r ('\\' :: acc)
      | '/' :: r => parseJSONStringRest fuel r ('/' :: acc)
      | 'b' :: r => parseJSONStringRest fuel r ('\x08' :: acc)
      | 'f' :: r => parseJSONStringRest fuel r ('\x0c' :: acc)
      | 'n' :: r => parseJSONStringRest fuel r ('\n' :: acc)
      | 'r' :: r => parseJSONStringRest fuel r ('\r' :: acc)
      | 't' :: r => parseJSONStringRest fuel r ('\t' :: acc)
      | 'u' :: h1 :: h2 :: h3 :: h4 :: r =>
        (match hexVal h1, hexVal h2, hexVal h3, hexVal h4 with
         | some a, some b, some c, some d =>
           let n := ((a * 16 + b) * 16 + c) * 16 + d
           if 0xD800 ≤ n ∧ n < 0xDC00 then
             match r with
             | '\\' :: 'u' :: g1 :: g2 :: g3 :: g4 :: r2 =>
               (match hexVal g1, hexVal g2, hexVal g3, hexVal g4 with
                | some a2, some b2, some c2, some d2 =>
                  let n2 := ((a2 * 16 + b2) * 16 + c2) * 16 + d2
                  if 0xDC00 ≤ n2 ∧ n2 < 0xE000 then
                    parseJSONStringRest fuel r2
                      (Char.ofNat (0x10000 + (n - 0xD800) * 0x400 + (n2 - 0xDC00)) :: acc)
                  else parseJSONStringRest fuel r ('�' :: acc)
                | _, _, _, _ => parseJSONStringRest fuel r ('�' :: acc))
             | _ => parseJSONStringRest fuel r ('�' :: acc)
           else if 0xDC00 ≤ n ∧ n < 0xE000 then
             parseJSONStringRest fuel r ('�' :: acc)
           else
             parseJSONStringRest fuel r (Char.ofNat n :: acc)
         | _, _, _, _ => none)
      | _ => none
    | c :: rest =>
      if c.toNat < 0x20 then none
      else parseJSONStringRest fuel rest (c :: acc)

/-- Split a leading run of decimal digits off the input, accumulator
style: `spanDigits acc cs` returns the digits (after `acc.reverse`) and
the remainder. -/
def spanDigits (acc : List Char) (cs : List Char) : List Char × List Char :=
  match cs with
  | [] => (acc.reverse, [])
  | c :: rest =>
    if isDigitChar c then spanDigits (c :: acc) rest else (acc.reverse, cs)

def digitsToNat (ds : List Char) : Nat :=
  ds.foldl (fun acc c => 10 * acc + digitVal c) 0

/-- The optional sign of a JSON exponent part, as a multiplier. -/
def splitExpSign (cs : List Char) : Int × List Char :=
  match cs with
  | '+' :: rest => (1, rest)
  | '-' :: rest => (-1, rest)
  | _ => (1, cs)

def parseJSONExp (cs : List Char) : Option (Int × List Char) :=
  let (sign, cs1) := splitExpSign cs
  match spanDigits [] cs1 with
  | ([], _) => none
  | (ds, r) => some (sign * Int.ofNat (digitsToNat ds), r)

/-- JSON number grammar: optional minus, integer part without leading
zeros, optional fraction, optional exponent; the value as a rational. -/
def parseJSONNumber (cs : List Char) : Option (JSON × List Char) :=
  let (neg, cs1) :=
    match cs with
    | '-' :: rest => (true, rest)
    | _ => (false, cs)
  match spanDigits [] cs1 with
  | ([], _) => none
  | (intDs, cs2) =>
    if 1 < intDs.length && intDs.headD '0' == '0' then none
    else
      let fracStep : Option (List Char × List Char) :=
        match cs2 with
        | '.' :: r =>
          (match spanDigits [] r with
           | ([], _) => none
           | (ds, r2) => some (ds, r2))
        | _ => some ([], cs2)
      match fracStep with
      | none => none
      | some (fracDs, cs3) =>
        let expStep : Option (Int × List Char) :=
          match cs3 with
          | 'e' :: r => parseJSONExp r
          | 'E' :: r => parseJSONExp r
          | _ => some (0, cs3)
        match expStep with
        | none => none
        | some (ex, cs4) =>
          let mag : Int := Int.ofNat (digitsToNat (intDs ++ fracDs))
          let mantissa : Int := if neg then -mag else mag
          let scale : Int := ex - Int.ofNat fracDs.length
          let q : Rat :=
            if 0 ≤ scale then mkRat (mantissa * (10 : Int) ^ scale.toNat) 1
            else mkRat mantissa ((10 : Nat) ^ (-scale).toNat)
          some (JSON.num q, cs4)

mutual

def parseJSONValue : Nat → List Char → Option (JSON × List Char)
  | 0, _ => none
  | fuel + 1, cs =>
    match skipWS cs with
    | 'n' :: 'u' :: 'l' :: 'l' :: rest => some (JSON.null, rest)
    | 't' :: 'r' :: 'u' :: 'e' :: rest => some (JSON.bool true, rest)
    | 'f' :: 'a' :: 'l' :: 's' :: 'e' :: rest => some (JSON.bool false, rest)
    | '"' :: rest =>
      (match parseJSONStringRest (rest.length + 1) rest [] with
       | some (s, r) => some (JSON.str s, r)
       | none => none)
    | '[' :: rest =>
      (match skipWS rest with
       | ']' :: r => some (JSON.arr [], r)
       | _ => parseJSONArrayRest fuel rest [])
    | '\x7b' :: rest =>
      (match skipWS rest with
       | '\x7d' :: r => some (JSON.obj [], r)
       | _ => parseJSONObjectRest fuel rest [])
    | cs2 => parseJSONNumber cs2

def parseJSONArrayRest : Nat → List Char → List JSON → Option (JSON × List Char)
  | 0, _, _ => none
  | fuel + 1, cs, acc =>
    match parseJSONValue fuel cs with
    | none => none
    | some (v, r) =>
      match skipWS r with
      | ',' :: r2 => parseJSONArrayRest fuel r2 (v :: acc)
      | ']' :: r2 => some (JSON.arr (v :: acc).reverse, r2)
      | _ => none

def parseJSONObjectRest : Nat → List Char → List (String × JSON) →
    Option (JSON × List Char)
  | 0, _, _ => none
  | fuel + 1, cs, acc =>
    match skipWS cs with
    | '"' :: rest =>
      (match parseJSONStringRest (rest.length + 1) rest [] with
       | none => none
       | some (key, r1) =>
         match skipWS r1 with
         | ':' :: r2 =>
           (match parseJSONValue fuel r2 with
            | none => none
            | some (v, r3) =>
              match skipWS r3 with
              | ',' :: r4 => parseJSONObjectRest fuel r4 ((key, v) :: acc)
              | '\x7d' :: r4 => some (JSON.obj ((key, v) :: acc).reverse, r4)
              | _ => none)
         | _ => none)
    | _ => none

end

/-- Parse a whole body as one JSON value, allowing trailing whitespace;
this plays the role of Go's `checkValid` plus scan. -/
def parseJSON (s : String) : Option JSON :=
  match parseJSONValue (2 * s.length + 2) s.toList with
  | some (j, rest) => if (skipWS rest).isEmpty then some j else none
  | none => none

/-- Translation of `UserInfo` from the types file: tags `id`, `email`, `fullname`,
`default_workspace_id`. -/
structure UserInfo where
  id : Int
  email : String
  fullname : String
  defaultWorkspaceID : Int
deriving DecidableEq

/-- The Go zero value of the shape, `var user UserInfo`. -/
def userInfoZero : UserInfo := ⟨0, "", "", 0⟩

def asciiLowerChar (c : Char) : Char :=
  if 'A' ≤ c && c ≤ 'Z' then Char.ofNat (c.toNat + 32) else c

def asciiLower (s : String) : String :=
  String.mk (s.toList.map asciiLowerChar)

/-- Go's JSON field-name matching: an exact tag match is preferred, else
an ASCII case-insensitive one; all tags here are lowercase, so this is
lowercasing the incoming key. -/
def jsonKeyMatches (key tag : String) : Bool :=
  key == tag || asciiLower key == tag

/-- First decode error wins (`decodeState.saveError`). -/
def saveFirstError (acc e : Option String) : Option String :=
  match acc with
  | some m => some m
  | none => e

/-- Decode a JSON value into a Go `int` field: null leaves the field
untouched with no error; a non-integral number or a non-number is an
`UnmarshalTypeError` - the field is skipped and decoding continues. -/
def goDecodeIntField (jv : JSON) (old : Int) : Int × Option String :=
  match jv with
  | JSON.null => (old, none)
  | JSON.num q =>
    if q.den == 1 then (q.num, none)
    else (old, some "cannot unmarshal number into field of type int")
  | _ => (old, some "cannot unmarshal value into field of type int")

/-- Decode a JSON value into a Go `string` field, same error policy. -/
def goDecodeStringField (jv : JSON) (old : String) : String × Option String :=
  match jv with
  | JSON.null => (old, none)
  | JSON.str s => (s, none)
  | _ => (old, some "cannot unmarshal value into field of type string")

def unmarshalUserInfoField (st : UserInfo × Option String)
    (field : String × JSON) : UserInfo × Option String :=
  let (v, errAcc) := st
  let (key, jv) := field
  if jsonKeyMatches key "id" then
    let (x, e) := goDecodeIntField jv v.id
    ({ v with id := x }, saveFirstError errAcc e)
  else if jsonKeyMatches key "email" then
    let (x, e) := goDecodeStringField jv v.email
    ({ v with email := x }, saveFirstError errAcc e)
  else if jsonKeyMatches key "fullname" then
    let (x, e) := goDecodeStringField jv v.fullname
    ({ v with fullname := x }, saveFirstError errAcc e)
  else if jsonKeyMatches key "default_workspace_id" then
    let (x, e) := goDecodeIntField jv v.defaultWorkspaceID
    ({ v with defaultWorkspaceID := x }, saveFirstError errAcc e)
  else (v, errAcc)

/-- Decode a parsed JSON value into `UserInfo`: a top-level null is a
no-op, a non-object is a type error leaving the value untouched, an
object is folded field by field with the save-and-continue policy. -/
def unmarshalUserInfoJSON (j : JSON) (v : UserInfo) : UserInfo × Option String :=
  match j with
  | JSON.null => (v, none)
  | JSON.obj fields => fields.foldl unmarshalUserInfoField (v, none)
  | _ => (v, some "cannot unmarshal value into UserInfo")

/-- Model of `json.Unmarshal` at the `UserInfo` shape: syntactic validity is
checked before anything is written (`checkValid`), then the value is
decoded with the save-and-continue policy. -/
def goUnmarshalUserInfo : Unmarshal UserInfo := fun body v =>
  match parseJSON body with
  | none => (v, some "invalid JSON syntax")
  | some j => unmarshalUserInfoJSON j v

/-! ## The tool handlers

Each handler is a pure function of its argument map, the transport
oracle, and the generic unmarshal steps the Go instantiation supplies.
Besides the outcome it returns the trace of requests it issued, and
`handleGetTimeEntriesForDay` additionally returns the argument map it
passed on, making its in-place mutation of the caller's map explicit. -/

/-- One outbound API request as a handler composes it: method, endpoint
relative to the fixed base URL, and the optional JSON body. -/
structure Request where
  method : String
  endpoint : String
  body : Option String
deriving DecidableEq

/-- The transport oracle: `makeRequest`'s observable behaviour during
one invocation.  `Except.error` models a request construction or
execution failure, in which case the handler never sees a response. -/
def Net : Type := Request → Except String HTTPResponse

/-- What a handler hands back to the host framework:
`hardError` is the `(nil, err)` return, `errorResult` is
`mcp.NewToolResultError` (a non-fatal result with the error flag set),
`textResult` is `mcp.NewToolResultText`. -/
inductive ToolOutcome where
  | hardError (msg : String)
  | errorResult (msg : String)
  | textResult (msg : String)
deriving DecidableEq

/-- Translation of `TimeEntry` from the types file (BaseEntity inlined); `time.Time`
fields are carried as their RFC3339 text; the Go field `At` is named
`atTime` because `at` is reserved in Lean. -/
structure TimeEntry where
  id : Int
  workspaceID : Int
  atTime : String
  projectID : Option Int
  description : String
  start : String
  stop : Option String
  duration : Int
  tags : List String
  tagIDs : List Int
deriving DecidableEq

/-- The Go zero value of the shape, `var entry TimeEntry`. -/
def timeEntryZero : TimeEntry := ⟨0, 0, "", none, "", "", none, 0, [], []⟩

/-- Translation of `Project` from the types file (BaseEntity inlined). -/
structure Project where
  id : Int
  workspaceID : Int
  atTime : String
  name : String
  active : Bool
  color : String
  clientID : Option Int
deriving DecidableEq

/-- The Go zero value of the shape, `var project Project`. -/
def projectZero : Project := ⟨0, 0, "", "", false, "", none⟩

/-- Go `json.Marshal` string escaping (HTML escaping on, the default):
quote, backslash and control characters are escaped, `<`, `>`, `&` and
U+2028/U+2029 become unicode escapes. -/
def goJSONEscapeChar (c : Char) : String :=
  if c == '"' then "\\\""
  else if c == '\\' then "\\\\"
  else if c == '\n' then "\\n"
  else if c == '\r' then "\\r"
  else if c == '\t' then "\\t"
  else if c == '<' then "\\u003c"
  else if c == '>' then "\\u003e"
  else if c == '&' then "\\u0026"
  else if c.toNat == 0x2028 then "\\u2028"
  else if c.toNat == 0x2029 then "\\u2029"
  else if c.toNat < 0x20 then "\\u00" ++ byteHex c.toNat
  else String.mk [c]

def goJSONQuote (s : String) : String :=
  "\"" ++ String.join (s.toList.map goJSONEscapeChar) ++ "\""

/-- Model of `json.Marshal` of the `TimeEntryRequest` struct: fields in
declaration order (description, start, duration, project_id, tags,
created_with); `project_id` and `tags` carry omitempty and the handler
never sets tags, so tags are always omitted; `created_with` is the
fixed client identifier. -/
def marshalTimeEntryRequest (description startStr : String) (duration : Int)
    (projectID : Option Int) : String :=
  "\x7b\"description\":" ++ goJSONQuote description ++
  ",\"start\":" ++ goJSONQuote startStr ++
  ",\"duration\":" ++ toString duration ++
  (match projectID with
   | some pid => ",\"project_id\":" ++ toString pid
   | none => "") ++
  ",\"created_with\":\"toggl-mcp\"\x7d"

/-- Model of `json.Marshal` of the string-keyed map payload that
`handleCreateProject` builds: Go marshals map keys in sorted order -
active, client_id, color, name. -/
def marshalProjectPayload (name : String) (color : Option String)
    (clientID : Option Int) : String :=
  "\x7b\"active\":true" ++
  (match clientID with
   | some cid => ",\"client_id\":" ++ toString cid
   | none => "") ++
  (match color with
   | some c => ",\"color\":" ++ goJSONQuote c
   | none => "") ++
  ",\"name\":" ++ goJSONQuote name ++ "\x7d"

/-- Translation of `handleTestConnection`: GET /me, decode `UserInfo`; an `APIError`
becomes the non-fatal "Authentication failed" result, any other decode
failure a hard error. -/
def handleTestConnection (unm : Unmarshal UserInfo) (net : Net) :
    ToolOutcome × List Request :=
  let req : Request := ⟨"GET", "/me", none⟩
  match net req with
  | Except.error e =>
    (ToolOutcome.hardError ("connecting to Toggl API: " ++ e), [req])
  | Except.ok resp =>
    match decodeResponse userInfoZero unm resp with
    | (_, some (DecodeError.apiError st b)) =>
      (ToolOutcome.errorResult ("Authentication failed: " ++ apiErrorMessage st b), [req])
    | (_, some e) =>
      (ToolOutcome.hardError ("parsing user info: " ++ e.message), [req])
    | (user, none) =>
      (ToolOutcome.textResult
        ("✅ Authentication successful!\nUser: " ++ user.fullname ++
          "\nEmail: " ++ user.email ++
          "\nDefault Workspace ID: " ++ toString user.defaultWorkspaceID), [req])

/-- Translation of `handleStartTimeEntry`: required description and workspace_id,
optional project_id; POST the marshalled `TimeEntryRequest` with
duration -1 and start `time.Now()` (passed in as its RFC3339 text). -/
def handleStartTimeEntry (unm : Unmarshal TimeEntry) (now : String)
    (args : Args) (net : Net) : ToolOutcome × List Request :=
  match getRequiredString args "description" with
  | Except.error e => (ToolOutcome.hardError ("invalid description: " ++ e), [])
  | Except.ok description =>
    match getRequiredNumber args "workspace_id" with
    | Except.error e => (ToolOutcome.hardError ("invalid workspace_id: " ++ e), [])
    | Except.ok workspaceID =>
      let payload :=
        marshalTimeEntryRequest description now (-1) (getOptionalNumber args "project_id")
      let req : Request :=
        ⟨"POST", "/workspaces/" ++ toString workspaceID ++ "/time_entries", some payload⟩
      match net req with
      | Except.error e => (ToolOutcome.hardError ("starting time entry: " ++ e), [req])
      | Except.ok resp =>
        match decodeResponse timeEntryZero unm resp with
        | (_, some (DecodeError.apiError st b)) =>
          (ToolOutcome.errorResult ("Failed to start time entry: " ++ apiErrorMessage st b), [req])
        | (_, some e) =>
          (ToolOutcome.hardError ("decoding response: " ++ e.message), [req])
        | (result, none) =>
          (ToolOutcome.textResult
            ("Started time entry: " ++ result.description ++
              " (ID: " ++ toString result.id ++ ")"), [req])

/-- Translation of `handleStopTimeEntry`: required workspace_id; GET the current entry
(404 is the domain-absence result), decode it - note that here a decode
failure of any kind, `APIError` included, is returned as a hard error -
then PATCH the stop endpoint and decode again, this time routing an
`APIError` to the non-fatal flagged result. -/
def handleStopTimeEntry (unm : Unmarshal TimeEntry) (args : Args) (net : Net) :
    ToolOutcome × List Request :=
  match getRequiredNumber args "workspace_id" with
  | Except.error e => (ToolOutcome.hardError ("invalid workspace_id: " ++ e), [])
  | Except.ok workspaceID =>
    let req1 : Request := ⟨"GET", "/me/time_entries/current", none⟩
    match net req1 with
    | Except.error e =>
      (ToolOutcome.hardError ("getting current time entry: " ++ e), [req1])
    | Except.ok resp =>
      if resp.statusCode = 404 then
        (ToolOutcome.textResult "No running time entry found", [req1])
      else
        match decodeResponse timeEntryZero unm resp with
        | (_, some e) =>
          (ToolOutcome.hardError ("parsing current entry: " ++ e.message), [req1])
        | (current, none) =>
          let req2 : Request :=
            ⟨"PATCH",
              "/workspaces/" ++ toString workspaceID ++ "/time_entries/" ++
                toString current.id ++ "/stop", none⟩
          match net req2 with
          | Except.error e =>
            (ToolOutcome.hardError ("stopping time entry: " ++ e), [req1, req2])
          | Except.ok stopResp =>
            match decodeResponse timeEntryZero unm stopResp with
            | (_, some (DecodeError.apiError st b)) =>
              (ToolOutcome.errorResult
                ("Failed to stop time entry: " ++ apiErrorMessage st b), [req1, req2])
            | (_, some e) =>
              (ToolOutcome.hardError ("decoding stop response: " ++ e.message), [req1, req2])
            | (_, none) =>
              (ToolOutcome.textResult
                ("Stopped time entry: " ++ current.description ++
                  " (ID: " ++ toString current.id ++ ")"), [req1, req2])

/-- Translation of `handleGetCurrentTimeEntry`: GET the current entry; 404 is the
domain-absence result; an `APIError` is the non-fatal flagged result;
the running duration `time.Since(start).Round(time.Second)` is passed
in as the function `sinceRounded` of the entry's start text. -/
def handleGetCurrentTimeEntry (unm : Unmarshal TimeEntry)
    (sinceRounded : String → String) (net : Net) : ToolOutcome × List Request :=
  let req : Request := ⟨"GET", "/me/time_entries/current", none⟩
  match net req with
  | Except.error e =>
    (ToolOutcome.hardError ("getting current time entry: " ++ e), [req])
  | Except.ok resp =>
    if resp.statusCode = 404 then
      (ToolOutcome.textResult "No running time entry found", [req])
    else
      match decodeResponse timeEntryZero unm resp with
      | (_, some (DecodeError.apiError st b)) =>
        (ToolOutcome.errorResult ("Failed to get current entry: " ++ apiErrorMessage st b), [req])
      | (_, some e) =>
        (ToolOutcome.hardError ("parsing response: " ++ e.message), [req])
      | (current, none) =>
        (ToolOutcome.textResult
          ("Current time entry: " ++ current.description ++
            " (ID: " ++ toString current.id ++
            ", Running for: " ++ sinceRounded current.start ++ ")"), [req])

/-- One line of `handleGetTimeEntries`'s success output. -/
def timeEntryLine (entry : TimeEntry) : String :=
  let projectInfo :=
    match entry.projectID with
    | some pid => " (Project ID: " ++ toString pid ++ ")"
    | none => ""
  "- " ++ entry.description ++ " (ID: " ++ toString entry.id ++ ")" ++
    projectInfo ++ " " ++ formatDuration entry.duration ++ "\n"

/-- The explanation block `handleGetTimeEntries` writes for an empty
result list. -/
def noEntriesHints : String :=
  "\nNo time entries found. This could be because:\n" ++
  "- No time entries exist in the specified date range\n" ++
  "- You need to specify a date range (start_date, end_date)\n" ++
  "- The default query only returns recent entries\n"

/-- The warning `handleGetTimeEntries` appends when the caller used the
same date for start and end: it recomputes the next calendar day from
start_date (the parse cannot fail at this point, start_date was already
validated) and suggests it as the corrected exclusive end date. -/
def sameDateWarning (startDate : String) : String :=
  "\n⚠️  LIKELY ISSUE: You used the same date for start_date and end_date!\n" ++
  "To get entries for " ++ startDate ++ ", use:\n" ++
  "  start_date: " ++ startDate ++ "\n" ++
  (match parseDate startDate with
   | some dt =>
     "  end_date: " ++ formatDate (addOneDay dt) ++ "\n" ++
     "OR use the \x27get_time_entries_for_day\x27 tool with date: " ++ startDate ++ "\n"
   | none => "")

/-- Translation of `handleGetTimeEntries`: optional start_date/end_date, each validated
as YYYY-MM-DD before any request (a hard error otherwise); the query is
assembled through `url.Values.Encode`; an `APIError` is the non-fatal
flagged result; on zero entries with start_date == end_date the
same-date warning is appended. -/
def handleGetTimeEntries (unm : Unmarshal (List TimeEntry)) (args : Args)
    (net : Net) : ToolOutcome × List Request :=
  let startDate := getOptionalString args "start_date"
  let endDate := getOptionalString args "end_date"
  if startDate ≠ "" ∧ parseDate startDate = none then
    (ToolOutcome.hardError "invalid start_date format (use YYYY-MM-DD)", [])
  else if endDate ≠ "" ∧ parseDate endDate = none then
    (ToolOutcome.hardError "invalid end_date format (use YYYY-MM-DD)", [])
  else
    let params :=
      (if startDate ≠ "" then [("start_date", startDate)] else []) ++
      (if endDate ≠ "" then [("end_date", endDate)] else [])
    let endpoint :=
      "/me/time_entries" ++ (if params.isEmpty then "" else "?" ++ encodeQuery params)
    let req : Request := ⟨"GET", endpoint, none⟩
    match net req with
    | Except.error e => (ToolOutcome.hardError ("getting time entries: " ++ e), [req])
    | Except.ok resp =>
      match decodeResponse ([] : List TimeEntry) unm resp with
      | (_, some (DecodeError.apiError st b)) =>
        (ToolOutcome.errorResult ("Failed to get time entries: " ++ apiErrorMessage st b), [req])
      | (_, some e) =>
        (ToolOutcome.hardError ("decoding response: " ++ e.message), [req])
      | (entries, none) =>
        let header := "Found " ++ toString entries.length ++ " time entries:\n"
        let text :=
          if entries.isEmpty then
            header ++ noEntriesHints ++
            (if startDate ≠ "" ∧ endDate ≠ "" ∧ startDate = endDate then
              sameDateWarning startDate
            else "")
          else
            header ++ String.join (entries.map timeEntryLine)
        (ToolOutcome.textResult text, [req])

/-- Translation of `handleGetTimeEntriesForDay`: required date, validated as
YYYY-MM-DD; writes date and date plus one calendar day into the
caller's argument map as start_date and end_date, then delegates to
`handleGetTimeEntries`.  The returned `Args` is the map after the two
in-place writes. -/
def handleGetTimeEntriesForDay (unm : Unmarshal (List TimeEntry)) (args : Args)
    (net : Net) : (ToolOutcome × List Request) × Args :=
  match getRequiredString args "date" with
  | Except.error e => ((ToolOutcome.hardError ("invalid date: " ++ e), []), args)
  | Except.ok date =>
    match parseDate date with
    | none => ((ToolOutcome.hardError "invalid date format (use YYYY-MM-DD)", []), args)
    | some startDt =>
      let endDateStr := formatDate (addOneDay startDt)
      let args2 := setArg (setArg args "start_date" (ParamValue.str date))
        "end_date" (ParamValue.str endDateStr)
      (handleGetTimeEntries unm args2 net, args2)

/-- Translation of `handleCreateProject`: required name and workspace_id, optional
color and client_id; POST the marshalled payload; an `APIError` is the
non-fatal flagged result. -/
def handleCreateProject (unm : Unmarshal Project) (args : Args) (net : Net) :
    ToolOutcome × List Request :=
  match getRequiredString args "name" with
  | Except.error e => (ToolOutcome.hardError ("invalid name: " ++ e), [])
  | Except.ok name =>
    match getRequiredNumber args "workspace_id" with
    | Except.error e => (ToolOutcome.hardError ("invalid workspace_id: " ++ e), [])
    | Except.ok workspaceID =>
      let color := getOptionalString args "color"
      let payload :=
        marshalProjectPayload name (if color = "" then none else some color)
          (getOptionalNumber args "client_id")
      let req : Request :=
        ⟨"POST", "/workspaces/" ++ toString workspaceID ++ "/projects", some payload⟩
      match net req with
      | Except.error e => (ToolOutcome.hardError ("creating project: " ++ e), [req])
      | Except.ok resp =>
        match decodeResponse projectZero unm resp with
        | (_, some (DecodeError.apiError st b)) =>
          (ToolOutcome.errorResult ("Failed to create project: " ++ apiErrorMessage st b), [req])
        | (_, some e) =>
          (ToolOutcome.hardError ("decoding response: " ++ e.message), [req])
        | (result, none) =>
          (ToolOutcome.textResult
            ("Created project: " ++ result.name ++
              " (ID: " ++ toString result.id ++ ")"), [req])

/-- One line of `handleGetProjects`'s success output. -/
def projectLine (project : Project) : String :=
  "- " ++ project.name ++ " (ID: " ++ toString project.id ++ ", " ++
    (if project.active then "active" else "inactive") ++ ")\n"

/-- The `active` block of `handleGetProjects`: the optional boolean is
read with a direct type assertion on the raw map
(`req.Params.Arguments["active"].(bool)`) - any non-boolean value
silently fails the assertion and the query parameter is omitted. -/
def activeParams (args : Args) : List (String × String) :=
  match args "active" with
  | some (ParamValue.bool b) => [("active", if b then "true" else "false")]
  | _ => []

/-- Translation of `handleGetProjects`: required workspace_id; the optional `active`
parameter as in `activeParams`; an `APIError` is the non-fatal flagged
result. -/
def handleGetProjects (unm : Unmarshal (List Project)) (args : Args) (net : Net) :
    ToolOutcome × List Request :=
  match getRequiredNumber args "workspace_id" with
  | Except.error e => (ToolOutcome.hardError ("invalid workspace_id: " ++ e), [])
  | Except.ok workspaceID =>
    let params := activeParams args
    let endpoint :=
      "/workspaces/" ++ toString workspaceID ++ "/projects" ++
        (if params.isEmpty then "" else "?" ++ encodeQuery params)
    let req : Request := ⟨"GET", endpoint, none⟩
    match net req with
    | Except.error e => (ToolOutcome.hardError ("getting projects: " ++ e), [req])
    | Except.ok resp =>
      match decodeResponse ([] : List Project) unm resp with
      | (_, some (DecodeError.apiError st b)) =>
        (ToolOutcome.errorResult ("Failed to get projects: " ++ apiErrorMessage st b), [req])
      | (_, some e) =>
        (ToolOutcome.hardError ("decoding response: " ++ e.message), [req])
      | (projects, none) =>
        (ToolOutcome.textResult
          ("Found " ++ toString projects.length ++ " projects:\n" ++
            String.join (projects.map projectLine)), [req])

/-! ## Concrete fixtures for witnesses -/

/-- The empty argument map. -/
def emptyArgs : Args := fun _ => none

/-- An argument map carrying only workspace_id = 456. -/
def wsArgs456 : Args := setArg emptyArgs "workspace_id" (ParamValue.num (mkRat 456 1))

/-- A transport oracle answering every request with the same response. -/
def constNet (resp : HTTPResponse) : Net := fun _ => Except.ok resp

/-- The unmarshal step's behaviour at a body that decodes successfully
without touching the target's zero value (for instance the body `null`
for any shape, or `[]` for a list shape whose zero is the empty list). -/
def unmNoop (T : Type) : Unmarshal T := fun _ v => (v, none)

/-! ## Helper lemmas about the decoder -/

lemma decodeResponse_api_of {T : Type} (zero : T) (unm : Unmarshal T)
    (st : Int) (b : String) (h : st < 200 ∨ 300 ≤ st) :
    decodeResponse zero unm ⟨st, Except.ok b⟩ =
      (zero, some (DecodeError.apiError st b)) := by
  simp only [decodeResponse]
  rw [if_pos h]

lemma decodeResponse_success_of {T : Type} (zero v : T) (unm : Unmarshal T)
    (st : Int) (b : String) (h : ¬(st < 200 ∨ 300 ≤ st))
    (hu : unm b zero = (v, none)) :
    decodeResponse zero unm ⟨st, Except.ok b⟩ = (v, none) := by
  simp only [decodeResponse]
  rw [if_neg h, hu]

lemma decodeResponse_decode_error_of {T : Type} (zero v : T) (unm : Unmarshal T)
    (st : Int) (b e : String) (h : ¬(st < 200 ∨ 300 ≤ st))
    (hu : unm b zero = (v, some e)) :
    decodeResponse zero unm ⟨st, Except.ok b⟩ =
      (v, some (DecodeError.decodeError e)) := by
  simp only [decodeResponse]
  rw [if_neg h, hu]

lemma decodeResponse_read_error_eq {T : Type} (zero : T) (unm : Unmarshal T)
    (st : Int) (m : String) :
    decodeResponse zero unm ⟨st, Except.error m⟩ =
      (zero, some (DecodeError.readError m)) := by
  simp only [decodeResponse]

/-! ## Claims about the decoder (C2, C3) -/

/-- C3: for every response, a status outside [200,300) yields an
APIError whose preserved body is byte-for-byte the raw response body
(never re-parsed or re-serialized), while a status inside [200,300)
whose body fails to unmarshal yields a decode error; the two error
kinds are distinct constructors and can never be confused. -/
theorem decodeResponse_error_classification {T : Type}
    (zero : T) (unm : Unmarshal T) (st : Int) (b : String) :
    ((st < 200 ∨ 300 ≤ st) →
      decodeResponse zero unm ⟨st, Except.ok b⟩ =
        (zero, some (DecodeError.apiError st b))) ∧
    (200 ≤ st → st < 300 → ∀ v e, unm b zero = (v, some e) →
      decodeResponse zero unm ⟨st, Except.ok b⟩ =
        (v, some (DecodeError.decodeError e))) ∧
    (∀ st2 b2 m, DecodeError.apiError st2 b2 ≠ DecodeError.decodeError m) := by
  refine ⟨?_, ?_, ?_⟩
  · intro h
    exact decodeResponse_api_of zero unm st b h
  · intro h1 h2 v e hu
    exact decodeResponse_decode_error_of zero v unm st b e (by omega) hu
  · intro st2 b2 m h
    exact DecodeError.noConfusion h

/-- C3 witness: the spec's own examples, evaluated on the concrete
model of unmarshaling at the UserInfo shape: a 400 response with body
`«curly»"error":"Bad Request"«curly»` preserves that body verbatim in
an APIError, and a 200 response with the unparsable body
`«curly»broken json` is a decode error, never an API error. -/
theorem decodeResponse_error_classification_witness :
    decodeResponse userInfoZero goUnmarshalUserInfo
        ⟨400, Except.ok "\x7b\"error\":\"Bad Request\"\x7d"⟩ =
      (userInfoZero, some (DecodeError.apiError 400 "\x7b\"error\":\"Bad Request\"\x7d")) ∧
    decodeResponse userInfoZero goUnmarshalUserInfo
        ⟨200, Except.ok "\x7bbroken json"⟩ =
      (userInfoZero, some (DecodeError.decodeError "invalid JSON syntax")) := by
  constructor
  · exact (decodeResponse_error_classification userInfoZero goUnmarshalUserInfo 400
      "\x7b\"error\":\"Bad Request\"\x7d").1 (by decide)
  · exact (decodeResponse_error_classification userInfoZero goUnmarshalUserInfo 200
      "\x7bbroken json").2.1 (by decide) (by decide) userInfoZero "invalid JSON syntax"
      (by decide)

/-- C2 counterexample: for a 200 response whose body is valid JSON that
partially matches UserInfo before failing (`id` is a number, `email` is
not a string), decodeResponse returns a decode error together with a
value that is *not* the shape's zero value: the `id` field has already
been written. This reproduces Go's documented unmarshal behaviour of
completing as much of the decode as it can before reporting the first
type error. -/
theorem decodeResponse_partial_value_counterexample :
    (decodeResponse userInfoZero goUnmarshalUserInfo
        ⟨200, Except.ok "\x7b\"id\":7,\"email\":5\x7d"⟩).2.isSome = true ∧
    (decodeResponse userInfoZero goUnmarshalUserInfo
        ⟨200, Except.ok "\x7b\"id\":7,\"email\":5\x7d"⟩).1 ≠ userInfoZero := by
  decide

/-- C2 amended: exactly one component of the returned pair is
meaningful, and the zero-value guarantee holds for body-read errors and
for API errors; on a JSON decode error, however, the returned value is
exactly what the unmarshal step left in the target, which for a body
that partially matches the shape can differ from the zero value. -/
theorem decodeResponse_zero_on_read_and_api_errors {T : Type}
    (zero : T) (unm : Unmarshal T) (resp : HTTPResponse) :
    (∀ v m, decodeResponse zero unm resp = (v, some (DecodeError.readError m)) →
      v = zero) ∧
    (∀ v st b, decodeResponse zero unm resp = (v, some (DecodeError.apiError st b)) →
      v = zero) ∧
    (∀ v e, decodeResponse zero unm resp = (v, some (DecodeError.decodeError e)) →
      ∃ body, resp.body = Except.ok body ∧ unm body zero = (v, some e)) := by
  obtain ⟨st, body⟩ := resp
  cases body with
  | error m =>
    refine ⟨?_, ?_, ?_⟩
    · intro v m2 h
      rw [decodeResponse_read_error_eq] at h
      injection h with h1 h2
      exact h1.symm
    · intro v st2 b h
      rw [decodeResponse_read_error_eq] at h
      simp at h
    · intro v e h
      rw [decodeResponse_read_error_eq] at h
      simp at h
  | ok b =>
    by_cases hst : st < 200 ∨ 300 ≤ st
    · refine ⟨?_, ?_, ?_⟩
      · intro v m h
        rw [decodeResponse_api_of _ _ _ _ hst] at h
        simp at h
      · intro v st2 b2 h
        rw [decodeResponse_api_of _ _ _ _ hst] at h
        injection h with h1 h2
        exact h1.symm
      · intro v e h
        rw [decodeResponse_api_of _ _ _ _ hst] at h
        simp at h
    · rcases hu : unm b zero with ⟨v0, e0⟩
      cases e0 with
      | none =>
        refine ⟨?_, ?_, ?_⟩
        · intro v m h
          rw [decodeResponse_success_of zero v0 unm st b hst hu] at h
          simp at h
        · intro v st2 b2 h
          rw [decodeResponse_success_of zero v0 unm st b hst hu] at h
          simp at h
        · intro v e h
          rw [decodeResponse_success_of zero v0 unm st b hst hu] at h
          simp at h
      | some e0 =>
        refine ⟨?_, ?_, ?_⟩
        · intro v m h
          rw [decodeResponse_decode_error_of zero v0 unm st b e0 hst hu] at h
          simp at h
        · intro v st2 b2 h
          rw [decodeResponse_decode_error_of zero v0 unm st b e0 hst hu] at h
          simp at h
        · intro v e h
          rw [decodeResponse_decode_error_of zero v0 unm st b e0 hst hu] at h
          injection h with h1 h2
          injection h2 with h3
          injection h3 with h4
          exact ⟨b, rfl, by rw [hu, h1, h4]⟩

/-- C2 amended witness: at a concrete 500 response the returned value
is the zero value. -/
theorem decodeResponse_zero_on_read_and_api_errors_witness :
    (decodeResponse userInfoZero goUnmarshalUserInfo ⟨500, Except.ok "oops"⟩).1 =
      userInfoZero :=
  (decodeResponse_zero_on_read_and_api_errors userInfoZero goUnmarshalUserInfo
    ⟨500, Except.ok "oops"⟩).2.1 _ 500 "oops" (by decide)

/-! ## Claims about parameter extraction and formatting (C7, C8) -/

lemma goIntOfNum_eq_floor_of_nonneg (q : Rat) (h : 0 ≤ q) : goIntOfNum q = ⌊q⌋ := by
  unfold goIntOfNum
  rw [Rat.floor_def]
  exact Int.tdiv_eq_ediv (Rat.num_nonneg.mpr h) (by positivity)

lemma goIntOfNum_eq_ceil_of_neg (q : Rat) (h : q < 0) : goIntOfNum q = ⌈q⌉ := by
  have h2 : goIntOfNum q = -Int.tdiv (-q).num (-q).den := by
    unfold goIntOfNum
    rw [Rat.neg_den, Rat.neg_num, Int.neg_tdiv, neg_neg]
  have h3 : Int.tdiv (-q).num (-q).den = ⌊-q⌋ := by
    rw [Rat.floor_def]
    exact Int.tdiv_eq_ediv (Rat.num_nonneg.mpr (by linarith)) (by positivity)
  rw [h2, h3]
  conv_rhs => rw [← neg_neg q]
  rw [Int.ceil_neg]

/-- C7: getRequiredNumber fails with its named-field error exactly when
the key is absent, null, or not a number, and otherwise returns the
number truncated toward zero (the floor for nonnegative numbers, the
ceiling for negative ones, so the number zero is accepted);
getRequiredString fails exactly when the key is absent, null, not a
string, or the empty string, and otherwise returns the string. -/
theorem required_param_extraction (args : Args) (key : String) :
    (∀ q, args key = some (ParamValue.num q) →
      getRequiredNumber args key = Except.ok (goIntOfNum q)) ∧
    (∀ q : Rat, 0 ≤ q → goIntOfNum q = ⌊q⌋) ∧
    (∀ q : Rat, q < 0 → goIntOfNum q = ⌈q⌉) ∧
    ((∀ q, args key ≠ some (ParamValue.num q)) →
      getRequiredNumber args key = Except.error (key ++ " must be a number")) ∧
    (∀ s, args key = some (ParamValue.str s) → s ≠ "" →
      getRequiredString args key = Except.ok s) ∧
    (args key = some (ParamValue.str "") →
      getRequiredString args key = Except.error (key ++ " must be a non-empty string")) ∧
    ((∀ s, args key ≠ some (ParamValue.str s)) →
      getRequiredString args key = Except.error (key ++ " must be a non-empty string")) := by
  refine ⟨?_, ?_, ?_, ?_, ?_, ?_, ?_⟩
  · intro q h
    unfold getRequiredNumber
    rw [h]
  · exact goIntOfNum_eq_floor_of_nonneg
  · exact goIntOfNum_eq_ceil_of_neg
  · intro hne
    cases hv : args key with
    | none => unfold getRequiredNumber; rw [hv]
    | some v =>
      cases v with
      | num q => exact absurd hv (hne q)
      | str s => unfold getRequiredNumber; rw [hv]
      | bool b => unfold getRequiredNumber; rw [hv]
      | null => unfold getRequiredNumber; rw [hv]
  · intro s h hs
    unfold getRequiredString
    rw [h]
    exact if_neg hs
  · intro h
    unfold getRequiredString
    rw [h]
    simp
  · intro hne
    cases hv : args key with
    | none => unfold getRequiredString; rw [hv]
    | some v =>
      cases v with
      | num q => unfold getRequiredString; rw [hv]
      | str s => exact absurd hv (hne s)
      | bool b => unfold getRequiredString; rw [hv]
      | null => unfold getRequiredString; rw [hv]

/-- C7 witness: the number zero is accepted and truncation holds at
7/2; the empty string, a null value and an absent key are rejected; a
non-empty string is returned unchanged. -/
theorem required_param_extraction_witness :
    getRequiredNumber (setArg emptyArgs "n" (ParamValue.num (mkRat 0 1))) "n" =
      Except.ok 0 ∧
    goIntOfNum (mkRat 7 2) = ⌊(mkRat 7 2 : Rat)⌋ ∧
    goIntOfNum (mkRat (-7) 2) = ⌈(mkRat (-7) 2 : Rat)⌉ ∧
    getRequiredNumber (setArg emptyArgs "k" ParamValue.null) "k" =
      Except.error "k must be a number" ∧
    getRequiredString (setArg emptyArgs "s" (ParamValue.str "")) "s" =
      Except.error "s must be a non-empty string" ∧
    getRequiredString (setArg emptyArgs "t" (ParamValue.str "x")) "t" =
      Except.ok "x" ∧
    getRequiredString emptyArgs "absent" =
      Except.error "absent must be a non-empty string" :=
  ⟨(required_param_extraction (setArg emptyArgs "n" (ParamValue.num (mkRat 0 1))) "n").1
      (mkRat 0 1) (by decide),
    (required_param_extraction emptyArgs "n").2.1 (mkRat 7 2) (by decide),
    (required_param_extraction emptyArgs "n").2.2.1 (mkRat (-7) 2) (by decide),
    (required_param_extraction (setArg emptyArgs "k" ParamValue.null) "k").2.2.2.1
      (fun q h => ParamValue.noConfusion (Option.some.inj h)),
    (required_param_extraction (setArg emptyArgs "s" (ParamValue.str "")) "s").2.2.2.2.2.1
      (by decide),
    (required_param_extraction (setArg emptyArgs "t" (ParamValue.str "x")) "t").2.2.2.2.1
      "x" (by decide) (by decide),
    (required_param_extraction emptyArgs "absent").2.2.2.2.2.2
      (fun s h => Option.noConfusion h)⟩

/-- C8: formatDuration renders negative seconds as the literal
"[running]" and otherwise as hours, minutes and seconds obtained by
truncating division by 3600 and 60, dropping the hour part when the
hour is zero and both hour and minute parts when both are zero, always
keeping seconds; the spec's six sample points evaluate as stated. -/
theorem formatDuration_spec :
    (∀ s : Int, s < 0 → formatDuration s = "[running]") ∧
    (∀ s : Int, 0 ≤ s →
      formatDuration s =
        (if 0 < s.toNat / 3600 then
          "[" ++ toString (s.toNat / 3600) ++ "h " ++ toString (s.toNat % 3600 / 60) ++
            "m " ++ toString (s.toNat % 60) ++ "s]"
        else if 0 < s.toNat % 3600 / 60 then
          "[" ++ toString (s.toNat % 3600 / 60) ++ "m " ++ toString (s.toNat % 60) ++ "s]"
        else
          "[" ++ toString (s.toNat % 60) ++ "s]")) ∧
    formatDuration (-1) = "[running]" ∧
    formatDuration 0 = "[0s]" ∧
    formatDuration 60 = "[1m 0s]" ∧
    formatDuration 3600 = "[1h 0m 0s]" ∧
    formatDuration 3665 = "[1h 1m 5s]" ∧
    formatDuration 90061 = "[25h 1m 1s]" := by
  refine ⟨?_, ?_, by decide, by decide, by decide, by decide, by decide, by decide⟩
  · intro s h
    unfold formatDuration
    rw [if_pos h]
  · intro s h
    unfold formatDuration
    rw [if_neg (by omega : ¬s < 0)]

/-- C8 witness: the two general clauses applied at concrete points. -/
theorem formatDuration_spec_witness :
    formatDuration (-5) = "[running]" ∧ formatDuration 7325 = "[2h 2m 5s]" :=
  ⟨formatDuration_spec.1 (-5) (by decide), formatDuration_spec.2.1 7325 (by decide)⟩

/-! ## Claims about the handlers (C1, C4, C5, C6, C9, C10) -/

/-- C4: when the current-entry lookup responds with status 404, both
stop_time_entry and get_current_time_entry return the literal text
"No running time entry found" as an ordinary successful result: no
hard error and no error flag set. -/
theorem current_entry_404_plain_text :
    (∀ (unm : Unmarshal TimeEntry) (args : Args) (net : Net) (wid : Int)
        (resp : HTTPResponse),
      getRequiredNumber args "workspace_id" = Except.ok wid →
      net ⟨"GET", "/me/time_entries/current", none⟩ = Except.ok resp →
      resp.statusCode = 404 →
      handleStopTimeEntry unm args net =
        (ToolOutcome.textResult "No running time entry found",
          [⟨"GET", "/me/time_entries/current", none⟩])) ∧
    (∀ (unm : Unmarshal TimeEntry) (since : String → String) (net : Net)
        (resp : HTTPResponse),
      net ⟨"GET", "/me/time_entries/current", none⟩ = Except.ok resp →
      resp.statusCode = 404 →
      handleGetCurrentTimeEntry unm since net =
        (ToolOutcome.textResult "No running time entry found",
          [⟨"GET", "/me/time_entries/current", none⟩])) := by
  constructor
  · intro unm args net wid resp hw hnet h404
    simp only [handleStopTimeEntry]
    rw [hw]
    dsimp only
    rw [hnet]
    dsimp only
    rw [if_pos h404]
  · intro unm since net resp hnet h404
    simp only [handleGetCurrentTimeEntry]
    rw [hnet]
    dsimp only
    rw [if_pos h404]

/-- C4 witness: both handlers at a concrete 404 lookup response. -/
theorem current_entry_404_plain_text_witness :
    handleStopTimeEntry (unmNoop TimeEntry) wsArgs456 (constNet ⟨404, Except.ok ""⟩) =
      (ToolOutcome.textResult "No running time entry found",
        [⟨"GET", "/me/time_entries/current", none⟩]) ∧
    handleGetCurrentTimeEntry (unmNoop TimeEntry) (fun _ => "0s")
        (constNet ⟨404, Except.ok ""⟩) =
      (ToolOutcome.textResult "No running time entry found",
        [⟨"GET", "/me/time_entries/current", none⟩]) :=
  ⟨current_entry_404_plain_text.1 (unmNoop TimeEntry) wsArgs456
      (constNet ⟨404, Except.ok ""⟩) 456 ⟨404, Except.ok ""⟩ rfl rfl rfl,
    current_entry_404_plain_text.2 (unmNoop TimeEntry) (fun _ => "0s")
      (constNet ⟨404, Except.ok ""⟩) ⟨404, Except.ok ""⟩ rfl rfl⟩

/-- C1 counterexample: with a 500 response on the current-entry lookup
inside stop_time_entry, the decode yields an APIError, yet the handler
returns a *hard error* (the `(nil, err)` return), not a non-fatal tool
result with the error flag set: the lookup decode at handlers.go
220-223 has no APIError carve-out. -/
theorem stop_lookup_api_error_counterexample :
    handleStopTimeEntry (unmNoop TimeEntry) wsArgs456
        (constNet ⟨500, Except.ok "boom"⟩) =
      (ToolOutcome.hardError "parsing current entry: API error (status 500): boom",
        [⟨"GET", "/me/time_entries/current", none⟩]) := by
  decide

/-- C1 amended: every handler surfaces an APIError from its decode as a
non-fatal flagged tool result embedding the remote status and body -
with one exception: the current-entry lookup inside stop_time_entry,
where a non-404 response whose decode yields an APIError is returned as
a hard error.  The conjuncts cover, in order: test_connection,
start_time_entry, get_current_time_entry, get_time_entries,
create_project, get_projects, the stop request of stop_time_entry, and
the exceptional lookup decode of stop_time_entry. -/
theorem api_errors_flagged_except_stop_lookup :
    (∀ (unm : Unmarshal UserInfo) (st : Int) (b : String),
      (st < 200 ∨ 300 ≤ st) →
      (handleTestConnection unm (constNet ⟨st, Except.ok b⟩)).1 =
        ToolOutcome.errorResult ("Authentication failed: " ++ apiErrorMessage st b)) ∧
    (∀ (unm : Unmarshal TimeEntry) (now : String) (args : Args) (st : Int)
        (b desc : String) (wid : Int),
      getRequiredString args "description" = Except.ok desc →
      getRequiredNumber args "workspace_id" = Except.ok wid →
      (st < 200 ∨ 300 ≤ st) →
      (handleStartTimeEntry unm now args (constNet ⟨st, Except.ok b⟩)).1 =
        ToolOutcome.errorResult ("Failed to start time entry: " ++ apiErrorMessage st b)) ∧
    (∀ (unm : Unmarshal TimeEntry) (since : String → String) (st : Int) (b : String),
      st ≠ 404 →
      (st < 200 ∨ 300 ≤ st) →
      (handleGetCurrentTimeEntry unm since (constNet ⟨st, Except.ok b⟩)).1 =
        ToolOutcome.errorResult ("Failed to get current entry: " ++ apiErrorMessage st b)) ∧
    (∀ (unm : Unmarshal (List TimeEntry)) (args : Args) (st : Int) (b : String),
      (getOptionalString args "start_date" = "" ∨
        (parseDate (getOptionalString args "start_date")).isSome) →
      (getOptionalString args "end_date" = "" ∨
        (parseDate (getOptionalString args "end_date")).isSome) →
      (st < 200 ∨ 300 ≤ st) →
      (handleGetTimeEntries unm args (constNet ⟨st, Except.ok b⟩)).1 =
        ToolOutcome.errorResult ("Failed to get time entries: " ++ apiErrorMessage st b)) ∧
    (∀ (unm : Unmarshal Project) (args : Args) (st : Int) (b name : String) (wid : Int),
      getRequiredString args "name" = Except.ok name →
      getRequiredNumber args "workspace_id" = Except.ok wid →
      (st < 200 ∨ 300 ≤ st) →
      (handleCreateProject unm args (constNet ⟨st, Except.ok b⟩)).1 =
        ToolOutcome.errorResult ("Failed to create project: " ++ apiErrorMessage st b)) ∧
    (∀ (unm : Unmarshal (List Project)) (args : Args) (st : Int) (b : String) (wid : Int),
      getRequiredNumber args "workspace_id" = Except.ok wid →
      (st < 200 ∨ 300 ≤ st) →
      (handleGetProjects unm args (constNet ⟨st, Except.ok b⟩)).1 =
        ToolOutcome.errorResult ("Failed to get projects: " ++ apiErrorMessage st b)) ∧
    (∀ (unm : Unmarshal TimeEntry) (args : Args) (net : Net) (wid : Int)
        (resp1 : HTTPResponse) (current : TimeEntry) (st : Int) (b : String),
      getRequiredNumber args "workspace_id" = Except.ok wid →
      net ⟨"GET", "/me/time_entries/current", none⟩ = Except.ok resp1 →
      resp1.statusCode ≠ 404 →
      decodeResponse timeEntryZero unm resp1 = (current, none) →
      net ⟨"PATCH", "/workspaces/" ++ toString wid ++ "/time_entries/" ++
          toString current.id ++ "/stop", none⟩ = Except.ok ⟨st, Except.ok b⟩ →
      (st < 200 ∨ 300 ≤ st) →
      (handleStopTimeEntry unm args net).1 =
        ToolOutcome.errorResult ("Failed to stop time entry: " ++ apiErrorMessage st b)) ∧
    (∀ (unm : Unmarshal TimeEntry) (args : Args) (net : Net) (wid st : Int) (b : String),
      getRequiredNumber args "workspace_id" = Except.ok wid →
      net ⟨"GET", "/me/time_entries/current", none⟩ = Except.ok ⟨st, Except.ok b⟩ →
      st ≠ 404 →
      (st < 200 ∨ 300 ≤ st) →
      (handleStopTimeEntry unm args net).1 =
        ToolOutcome.hardError ("parsing current entry: " ++ apiErrorMessage st b)) := by
  refine ⟨?_, ?_, ?_, ?_, ?_, ?_, ?_, ?_⟩
  · intro unm st b hst
    simp only [handleTestConnection, constNet]
    rw [decodeResponse_api_of userInfoZero unm st b hst]
  · intro unm now args st b desc wid hd hw hst
    simp only [handleStartTimeEntry, constNet]
    rw [hd]
    dsimp only
    rw [hw]
    dsimp only
    rw [decodeResponse_api_of timeEntryZero unm st b hst]
  · intro unm since st b h404 hst
    simp only [handleGetCurrentTimeEntry, constNet]
    rw [if_neg h404]
    rw [decodeResponse_api_of timeEntryZero unm st b hst]
  · intro unm args st b hs he hst
    have hns : ¬(getOptionalString args "start_date" ≠ "" ∧
        parseDate (getOptionalString args "start_date") = none) := by
      rcases hs with h | h
      · exact fun hc => hc.1 h
      · exact fun hc => by simp [hc.2] at h
    have hne : ¬(getOptionalString args "end_date" ≠ "" ∧
        parseDate (getOptionalString args "end_date") = none) := by
      rcases he with h | h
      · exact fun hc => hc.1 h
      · exact fun hc => by simp [hc.2] at h
    simp only [handleGetTimeEntries, constNet]
    rw [if_neg hns]
    rw [if_neg hne]
    rw [decodeResponse_api_of ([] : List TimeEntry) unm st b hst]
  · intro unm args st b name wid hn hw hst
    simp only [handleCreateProject, constNet]
    rw [hn]
    dsimp only
    rw [hw]
    dsimp only
    rw [decodeResponse_api_of projectZero unm st b hst]
  · intro unm args st b wid hw hst
    simp only [handleGetProjects, constNet]
    rw [hw]
    dsimp only
    rw [decodeResponse_api_of ([] : List Project) unm st b hst]
  · intro unm args net wid resp1 current st b hw hnet1 h404 hdec hnet2 hst
    simp only [handleStopTimeEntry]
    rw [hw]
    dsimp only
    rw [hnet1]
    dsimp only
    rw [if_neg h404]
    rw [hdec]
    dsimp only
    rw [hnet2]
    dsimp only
    rw [decodeResponse_api_of timeEntryZero unm st b hst]
  · intro unm args net wid st b hw hnet h404 hst
    simp only [handleStopTimeEntry]
    rw [hw]
    dsimp only
    rw [hnet]
    dsimp only
    rw [if_neg h404]
    rw [decodeResponse_api_of timeEntryZero unm st b hst]
    rfl

/-- C1 amended witness: each conjunct at a concrete input: 403/500
responses on every handler's decode, and the two stop_time_entry paths
with an explicit two-request oracle. -/
theorem api_errors_flagged_except_stop_lookup_witness :
    (handleTestConnection goUnmarshalUserInfo (constNet ⟨403, Except.ok "denied"⟩)).1 =
      ToolOutcome.errorResult "Authentication failed: API error (status 403): denied" ∧
    (handleStartTimeEntry (unmNoop TimeEntry) "2025-01-15T10:00:00Z"
        (setArg (setArg emptyArgs "description" (ParamValue.str "work"))
          "workspace_id" (ParamValue.num (mkRat 456 1)))
        (constNet ⟨500, Except.ok "boom"⟩)).1 =
      ToolOutcome.errorResult "Failed to start time entry: API error (status 500): boom" ∧
    (handleGetCurrentTimeEntry (unmNoop TimeEntry) (fun _ => "")
        (constNet ⟨500, Except.ok "boom"⟩)).1 =
      ToolOutcome.errorResult "Failed to get current entry: API error (status 500): boom" ∧
    (handleGetTimeEntries (unmNoop (List TimeEntry)) emptyArgs
        (constNet ⟨500, Except.ok "boom"⟩)).1 =
      ToolOutcome.errorResult "Failed to get time entries: API error (status 500): boom" ∧
    (handleCreateProject (unmNoop Project)
        (setArg (setArg emptyArgs "name" (ParamValue.str "proj"))
          "workspace_id" (ParamValue.num (mkRat 456 1)))
        (constNet ⟨500, Except.ok "boom"⟩)).1 =
      ToolOutcome.errorResult "Failed to create project: API error (status 500): boom" ∧
    (handleGetProjects (unmNoop (List Project)) wsArgs456
        (constNet ⟨500, Except.ok "boom"⟩)).1 =
      ToolOutcome.errorResult "Failed to get projects: API error (status 500): boom" ∧
    (handleStopTimeEntry (unmNoop TimeEntry) wsArgs456
        (fun r => if r.method = "PATCH" then Except.ok ⟨500, Except.ok "boom"⟩
          else Except.ok ⟨200, Except.ok "null"⟩)).1 =
      ToolOutcome.errorResult "Failed to stop time entry: API error (status 500): boom" ∧
    (handleStopTimeEntry (unmNoop TimeEntry) wsArgs456
        (constNet ⟨500, Except.ok "boom"⟩)).1 =
      ToolOutcome.hardError "parsing current entry: API error (status 500): boom" :=
  ⟨api_errors_flagged_except_stop_lookup.1 goUnmarshalUserInfo 403 "denied" (by decide),
    api_errors_flagged_except_stop_lookup.2.1 (unmNoop TimeEntry) "2025-01-15T10:00:00Z"
      (setArg (setArg emptyArgs "description" (ParamValue.str "work"))
        "workspace_id" (ParamValue.num (mkRat 456 1)))
      500 "boom" "work" 456 rfl rfl (by decide),
    api_errors_flagged_except_stop_lookup.2.2.1 (unmNoop TimeEntry) (fun _ => "")
      500 "boom" (by decide) (by decide),
    api_errors_flagged_except_stop_lookup.2.2.2.1 (unmNoop (List TimeEntry)) emptyArgs
      500 "boom" (Or.inl rfl) (Or.inl rfl) (by decide),
    api_errors_flagged_except_stop_lookup.2.2.2.2.1 (unmNoop Project)
      (setArg (setArg emptyArgs "name" (ParamValue.str "proj"))
        "workspace_id" (ParamValue.num (mkRat 456 1)))
      500 "boom" "proj" 456 rfl rfl (by decide),
    api_errors_flagged_except_stop_lookup.2.2.2.2.2.1 (unmNoop (List Project)) wsArgs456
      500 "boom" 456 rfl (by decide),
    api_errors_flagged_except_stop_lookup.2.2.2.2.2.2.1 (unmNoop TimeEntry) wsArgs456
      (fun r => if r.method = "PATCH" then Except.ok ⟨500, Except.ok "boom"⟩
        else Except.ok ⟨200, Except.ok "null"⟩)
      456 ⟨200, Except.ok "null"⟩ timeEntryZero 500 "boom"
      rfl rfl (by decide) rfl rfl (by decide),
    api_errors_flagged_except_stop_lookup.2.2.2.2.2.2.2 (unmNoop TimeEntry) wsArgs456
      (constNet ⟨500, Except.ok "boom"⟩) 456 500 "boom" rfl rfl (by decide) (by decide)⟩

/-- C5: for a valid YYYY-MM-DD date string d, get_time_entries_for_day
issues exactly the requests that get_time_entries issues - and returns
its exact result - when given start_date = d and end_date = d plus one
calendar day, the end date computed by calendar day addition
(`addOneDay` rolls over month and year boundaries). -/
theorem forDay_delegates_to_getTimeEntries_next_day :
    ∀ (unm : Unmarshal (List TimeEntry)) (args : Args) (net : Net) (d : String)
      (dt : GoDate),
      args "date" = some (ParamValue.str d) →
      d ≠ "" →
      parseDate d = some dt →
      (handleGetTimeEntriesForDay unm args net).1 =
        handleGetTimeEntries unm
          (setArg (setArg args "start_date" (ParamValue.str d))
            "end_date" (ParamValue.str (formatDate (addOneDay dt)))) net := by
  intro unm args net d dt hd hne hp
  simp only [handleGetTimeEntriesForDay, getRequiredString]
  rw [hd]
  dsimp only
  rw [if_neg hne]
  dsimp only
  rw [hp]

/-- C5 witness: the month-boundary example: for date 2025-01-31 the
delegated call receives end_date 2025-02-01, and the single issued
request carries both dates in its query string. -/
theorem forDay_delegates_to_getTimeEntries_next_day_witness :
    (handleGetTimeEntriesForDay (unmNoop (List TimeEntry))
        (setArg emptyArgs "date" (ParamValue.str "2025-01-31"))
        (constNet ⟨200, Except.ok "[]"⟩)).1 =
      handleGetTimeEntries (unmNoop (List TimeEntry))
        (setArg (setArg (setArg emptyArgs "date" (ParamValue.str "2025-01-31"))
            "start_date" (ParamValue.str "2025-01-31"))
          "end_date" (ParamValue.str "2025-02-01"))
        (constNet ⟨200, Except.ok "[]"⟩) ∧
    (handleGetTimeEntriesForDay (unmNoop (List TimeEntry))
        (setArg emptyArgs "date" (ParamValue.str "2025-01-31"))
        (constNet ⟨200, Except.ok "[]"⟩)).1.2 =
      [⟨"GET", "/me/time_entries?end_date=2025-02-01&start_date=2025-01-31", none⟩] :=
  ⟨forDay_delegates_to_getTimeEntries_next_day (unmNoop (List TimeEntry))
      (setArg emptyArgs "date" (ParamValue.str "2025-01-31"))
      (constNet ⟨200, Except.ok "[]"⟩) "2025-01-31" ⟨2025, 1, 31⟩
      rfl (by decide) (by decide),
    by decide⟩

/-- C9: get_time_entries_for_day mutates the caller's argument map in
place: after a call with a valid date d, the map's start_date entry is
d and its end_date entry is d plus one calendar day, overwriting
whatever the caller supplied under those keys; no other entry changes;
and the delegated get_time_entries call receives exactly the mutated
map, so the caller-supplied start_date/end_date are never used. -/
theorem forDay_mutates_caller_args :
    ∀ (unm : Unmarshal (List TimeEntry)) (args : Args) (net : Net) (d : String)
      (dt : GoDate),
      args "date" = some (ParamValue.str d) →
      d ≠ "" →
      parseDate d = some dt →
      (handleGetTimeEntriesForDay unm args net).2 "start_date" =
          some (ParamValue.str d) ∧
        (handleGetTimeEntriesForDay unm args net).2 "end_date" =
          some (ParamValue.str (formatDate (addOneDay dt))) ∧
        (∀ k, k ≠ "start_date" → k ≠ "end_date" →
          (handleGetTimeEntriesForDay unm args net).2 k = args k) ∧
        (handleGetTimeEntriesForDay unm args net).1 =
          handleGetTimeEntries unm (handleGetTimeEntriesForDay unm args net).2 net := by
  intro unm args net d dt hd hne hp
  have h2 : (handleGetTimeEntriesForDay unm args net).2 =
      setArg (setArg args "start_date" (ParamValue.str d)) "end_date"
        (ParamValue.str (formatDate (addOneDay dt))) := by
    simp only [handleGetTimeEntriesForDay, getRequiredString]
    rw [hd]
    dsimp only
    rw [if_neg hne]
    dsimp only
    rw [hp]
  refine ⟨?_, ?_, ?_, ?_⟩
  · rw [h2]
    simp [setArg]
  · rw [h2]
    simp [setArg]
  · intro k hk1 hk2
    rw [h2]
    simp [setArg, hk1, hk2]
  · rw [h2]
    simp only [handleGetTimeEntriesForDay, getRequiredString]
    rw [hd]
    dsimp only
    rw [if_neg hne]
    dsimp only
    rw [hp]

/-- C9 witness: with date 2025-12-31 and a caller-supplied start_date
of 1999-01-01, the map after the call carries start_date 2025-12-31,
end_date 2026-01-01 (year rollover), and an unrelated key unchanged. -/
theorem forDay_mutates_caller_args_witness :
    (handleGetTimeEntriesForDay (unmNoop (List TimeEntry))
        (setArg (setArg (setArg emptyArgs "date" (ParamValue.str "2025-12-31"))
            "start_date" (ParamValue.str "1999-01-01"))
          "other" (ParamValue.num (mkRat 1 1)))
        (constNet ⟨200, Except.ok "[]"⟩)).2 "start_date" =
      some (ParamValue.str "2025-12-31") ∧
    (handleGetTimeEntriesForDay (unmNoop (List TimeEntry))
        (setArg (setArg (setArg emptyArgs "date" (ParamValue.str "2025-12-31"))
            "start_date" (ParamValue.str "1999-01-01"))
          "other" (ParamValue.num (mkRat 1 1)))
        (constNet ⟨200, Except.ok "[]"⟩)).2 "end_date" =
      some (ParamValue.str "2026-01-01") ∧
    (handleGetTimeEntriesForDay (unmNoop (List TimeEntry))
        (setArg (setArg (setArg emptyArgs "date" (ParamValue.str "2025-12-31"))
            "start_date" (ParamValue.str "1999-01-01"))
          "other" (ParamValue.num (mkRat 1 1)))
        (constNet ⟨200, Except.ok "[]"⟩)).2 "other" =
      some (ParamValue.num (mkRat 1 1)) :=
  ⟨(forDay_mutates_caller_args (unmNoop (List TimeEntry)) _ _ "2025-12-31" ⟨2025, 12, 31⟩
      rfl (by decide) (by decide)).1,
    (forDay_mutates_caller_args (unmNoop (List TimeEntry)) _ _ "2025-12-31" ⟨2025, 12, 31⟩
      rfl (by decide) (by decide)).2.1,
    (forDay_mutates_caller_args (unmNoop (List TimeEntry)) _ _ "2025-12-31" ⟨2025, 12, 31⟩
      rfl (by decide) (by decide)).2.2.1 "other" (by decide) (by decide)⟩

/-- C6: get_time_entries returns a hard error before issuing any
request (the trace is empty) when a supplied start_date or end_date is
non-empty and not in YYYY-MM-DD form; the same-date warning's suggested
end date is the start date plus one calendar day; and when the decoded
entry list is empty with start_date and end_date both supplied and
equal, the formatted result appends the same-date warning. -/
theorem getTimeEntries_validation_and_same_date_warning :
    (∀ (unm : Unmarshal (List TimeEntry)) (args : Args) (net : Net),
      getOptionalString args "start_date" ≠ "" →
      parseDate (getOptionalString args "start_date") = none →
      handleGetTimeEntries unm args net =
        (ToolOutcome.hardError "invalid start_date format (use YYYY-MM-DD)", [])) ∧
    (∀ (unm : Unmarshal (List TimeEntry)) (args : Args) (net : Net),
      (getOptionalString args "start_date" = "" ∨
        (parseDate (getOptionalString args "start_date")).isSome) →
      getOptionalString args "end_date" ≠ "" →
      parseDate (getOptionalString args "end_date") = none →
      handleGetTimeEntries unm args net =
        (ToolOutcome.hardError "invalid end_date format (use YYYY-MM-DD)", [])) ∧
    (∀ s dt, parseDate s = some dt →
      sameDateWarning s =
        "\n⚠️  LIKELY ISSUE: You used the same date for start_date and end_date!\n" ++
        "To get entries for " ++ s ++ ", use:\n" ++
        "  start_date: " ++ s ++ "\n" ++
        ("  end_date: " ++ formatDate (addOneDay dt) ++ "\n" ++
          "OR use the \x27get_time_entries_for_day\x27 tool with date: " ++ s ++
          "\n")) ∧
    (∀ (unm : Unmarshal (List TimeEntry)) (args : Args) (s : String) (dt : GoDate)
        (st : Int) (b : String),
      getOptionalString args "start_date" = s →
      getOptionalString args "end_date" = s →
      s ≠ "" →
      parseDate s = some dt →
      ¬(st < 200 ∨ 300 ≤ st) →
      unm b [] = ([], none) →
      (handleGetTimeEntries unm args (constNet ⟨st, Except.ok b⟩)).1 =
        ToolOutcome.textResult
          ("Found 0 time entries:\n" ++ noEntriesHints ++ sameDateWarning s)) := by
  refine ⟨?_, ?_, ?_, ?_⟩
  · intro unm args net h1 h2
    simp only [handleGetTimeEntries]
    rw [if_pos ⟨h1, h2⟩]
  · intro unm args net hs h1 h2
    have hns : ¬(getOptionalString args "start_date" ≠ "" ∧
        parseDate (getOptionalString args "start_date") = none) := by
      rcases hs with h | h
      · exact fun hc => hc.1 h
      · exact fun hc => by simp [hc.2] at h
    simp only [handleGetTimeEntries]
    rw [if_neg hns]
    rw [if_pos ⟨h1, h2⟩]
  · intro s dt hp
    unfold sameDateWarning
    rw [hp]
  · intro unm args s dt st b hs he hsne hp hst hu
    have hns : ¬(getOptionalString args "start_date" ≠ "" ∧
        parseDate (getOptionalString args "start_date") = none) := by
      rw [hs, hp]
      exact fun hc => Option.noConfusion hc.2
    have hne2 : ¬(getOptionalString args "end_date" ≠ "" ∧
        parseDate (getOptionalString args "end_date") = none) := by
      rw [he, hp]
      exact fun hc => Option.noConfusion hc.2
    have hcond : s ≠ "" ∧ s ≠ "" ∧ s = s := ⟨hsne, hsne, rfl⟩
    simp only [handleGetTimeEntries, constNet]
    rw [if_neg hns, if_neg hne2]
    rw [decodeResponse_success_of ([] : List TimeEntry) [] unm st b hst hu]
    rw [hs, he]
    rw [if_pos hcond]
    rfl

/-- C6 witness: a malformed start_date and a malformed end_date each
hard-fail with an empty request trace; the warning at 2025-01-15
suggests 2025-01-16; and the same-date empty-result call appends the
warning. -/
theorem getTimeEntries_validation_and_same_date_warning_witness :
    handleGetTimeEntries (unmNoop (List TimeEntry))
        (setArg emptyArgs "start_date" (ParamValue.str "2025/01/02"))
        (constNet ⟨200, Except.ok "[]"⟩) =
      (ToolOutcome.hardError "invalid start_date format (use YYYY-MM-DD)", []) ∧
    handleGetTimeEntries (unmNoop (List TimeEntry))
        (setArg emptyArgs "end_date" (ParamValue.str "2025-13-01"))
        (constNet ⟨200, Except.ok "[]"⟩) =
      (ToolOutcome.hardError "invalid end_date format (use YYYY-MM-DD)", []) ∧
    sameDateWarning "2025-01-15" =
      "\n⚠️  LIKELY ISSUE: You used the same date for start_date and end_date!\n" ++
      "To get entries for " ++ "2025-01-15" ++ ", use:\n" ++
      "  start_date: " ++ "2025-01-15" ++ "\n" ++
      ("  end_date: " ++ "2025-01-16" ++ "\n" ++
        "OR use the \x27get_time_entries_for_day\x27 tool with date: " ++
        "2025-01-15" ++ "\n") ∧
    (handleGetTimeEntries (unmNoop (List TimeEntry))
        (setArg (setArg emptyArgs "start_date" (ParamValue.str "2025-01-15"))
          "end_date" (ParamValue.str "2025-01-15"))
        (constNet ⟨200, Except.ok "[]"⟩)).1 =
      ToolOutcome.textResult
        ("Found 0 time entries:\n" ++ noEntriesHints ++ sameDateWarning "2025-01-15") :=
  ⟨getTimeEntries_validation_and_same_date_warning.1 (unmNoop (List TimeEntry))
      (setArg emptyArgs "start_date" (ParamValue.str "2025/01/02"))
      (constNet ⟨200, Except.ok "[]"⟩) (by decide) (by decide),
    getTimeEntries_validation_and_same_date_warning.2.1 (unmNoop (List TimeEntry))
      (setArg emptyArgs "end_date" (ParamValue.str "2025-13-01"))
      (constNet ⟨200, Except.ok "[]"⟩) (Or.inl rfl) (by decide) (by decide),
    getTimeEntries_validation_and_same_date_warning.2.2.1 "2025-01-15" ⟨2025, 1, 15⟩
      (by decide),
    getTimeEntries_validation_and_same_date_warning.2.2.2 (unmNoop (List TimeEntry))
      (setArg (setArg emptyArgs "start_date" (ParamValue.str "2025-01-15"))
        "end_date" (ParamValue.str "2025-01-15"))
      "2025-01-15" ⟨2025, 1, 15⟩ 200 "[]" rfl rfl (by decide) (by decide) (by decide)
      rfl⟩

/-- C10: when the active key is present with a non-boolean value,
get_projects does not fail on its account: it behaves exactly as if the
key were absent, and - with a valid workspace_id - still issues its
single request, with no active query parameter on the endpoint. -/
theorem getProjects_ignores_non_bool_active :
    ∀ (unm : Unmarshal (List Project)) (args : Args) (net : Net) (v : ParamValue),
      args "active" = some v →
      (∀ b, v ≠ ParamValue.bool b) →
      (handleGetProjects unm args net =
        handleGetProjects unm (removeArg args "active") net) ∧
      (∀ wid, getRequiredNumber args "workspace_id" = Except.ok wid →
        (handleGetProjects unm args net).2 =
          [⟨"GET", "/workspaces/" ++ toString wid ++ "/projects", none⟩]) := by
  intro unm args net v hv hnb
  have hparams : activeParams args = [] := by
    unfold activeParams
    rw [hv]
    cases v with
    | num q => rfl
    | str s => rfl
    | bool b => exact absurd rfl (hnb b)
    | null => rfl
  have hparams2 : activeParams (removeArg args "active") = [] := by
    unfold activeParams
    rfl
  have hwid : getRequiredNumber (removeArg args "active") "workspace_id" =
      getRequiredNumber args "workspace_id" := rfl
  constructor
  · simp only [handleGetProjects]
    rw [hparams, hparams2, hwid]
  · intro wid hw
    simp only [handleGetProjects]
    rw [hw, hparams]
    simp only [List.isEmpty_nil, eq_self_iff_true, if_true, String.append_empty]
    cases hnr : net ⟨"GET", "/workspaces/" ++ toString wid ++ "/projects", none⟩ with
    | error e => rfl
    | ok resp =>
      dsimp only
      rcases hdr : decodeResponse ([] : List Project) unm resp with ⟨ps, err⟩
      cases err with
      | none => rfl
      | some de =>
        cases de with
        | readError m => rfl
        | apiError st2 b2 => rfl
        | decodeError m => rfl

/-- C10 witness: with active supplied as the *string* "true" the
handler behaves as with no active key and issues the bare projects
request. -/
theorem getProjects_ignores_non_bool_active_witness :
    handleGetProjects (unmNoop (List Project))
        (setArg wsArgs456 "active" (ParamValue.str "true"))
        (constNet ⟨200, Except.ok "[]"⟩) =
      handleGetProjects (unmNoop (List Project))
        (removeArg (setArg wsArgs456 "active" (ParamValue.str "true")) "active")
        (constNet ⟨200, Except.ok "[]"⟩) ∧
    (handleGetProjects (unmNoop (List Project))
        (setArg wsArgs456 "active" (ParamValue.str "true"))
        (constNet ⟨200, Except.ok "[]"⟩)).2 =
      [⟨"GET", "/workspaces/456/projects", none⟩] :=
  ⟨(getProjects_ignores_non_bool_active (unmNoop (List Project))
      (setArg wsArgs456 "active" (ParamValue.str "true"))
      (constNet ⟨200, Except.ok "[]"⟩) (ParamValue.str "true") rfl
      (fun _ h => ParamValue.noConfusion h)).1,
    (getProjects_ignores_non_bool_active (unmNoop (List Project))
      (setArg wsArgs456 "active" (ParamValue.str "true"))
      (constNet ⟨200, Except.ok "[]"⟩) (ParamValue.str "true") rfl
      (fun _ h => ParamValue.noConfusion h)).2 456 rfl⟩

end Toggl
